import Mathlib

/-!
Verification of the Ayurvedic Pharmacy backend (`src/main.py`, `src/schemas.py`).

The document store itself (`database.py`: `create_document`, `get_documents`,
`count_documents`) is not part of the provided sources; its semantics is
modelled from the spec, section 4.2: `create` appends a record to a named
collection, `query` returns the records matching a filter that is a
conjunction of equality predicates plus an optional case-insensitive
substring search OR-ed over `title` and `description`, and `count` counts
matching documents.  Store failures ("unreachable or rejects the write")
are modelled by an oracle `Nat → Option String` consulted once per store
operation: `none` means the operation succeeds, `some m` means it raises a
storage error with message `m`.  An operation counter (`tick`) is threaded
through so that distinct store operations consult distinct oracle entries.

Timestamps (`datetime`) are modelled as natural numbers; floats (`price`)
as rationals.
-/

/-- Validated `Product` entity, from `schemas.py` lines 24-31. -/
structure Product where
  title : String
  description : Option String
  price : Rat
  category : String
  subcategory : Option String
  image : Option String
  in_stock : Bool
deriving DecidableEq, Repr

/-- Validated `Review` entity, from `schemas.py` lines 34-38. -/
structure Review where
  name : String
  rating : Int
  comment : String
  source : Option String
deriving DecidableEq, Repr

/-- Validated `Consultation` entity, from `schemas.py` lines 41-48. -/
structure Consultation where
  full_name : String
  email : String
  phone : Option String
  mode : String
  preferred_date : Option String
  message : Option String
  service : String
deriving DecidableEq, Repr

/-- Validated `ContactMessage` entity, from `schemas.py` lines 51-56. -/
structure ContactMessage where
  full_name : String
  email : String
  topic : String
  message : String
  channel : Option String
deriving DecidableEq, Repr

/-- Validated `BlogPost` entity, from `schemas.py` lines 59-67.
`published_at` timestamps are modelled as `Nat`. -/
structure BlogPost where
  title : String
  slug : String
  category : String
  excerpt : String
  content : String
  cover_image : Option String
  tags : Option (List String)
  published_at : Option Nat
deriving DecidableEq, Repr

/-- The document store: one list of documents per collection touched by the
API (`product`, `review`, `blogpost`, `consultation`, `contactmessage`).
Modelled from the spec: `database.py` is absent from the sources; the spec
describes collections of immutable documents receiving store-assigned ids,
with inserts appending new documents. -/
structure Store where
  product : List Product
  review : List Review
  blogpost : List BlogPost
  consultation : List Consultation
  contactmessage : List ContactMessage
deriving DecidableEq, Repr

/-- The empty store. -/
def Store.empty : Store := ⟨[], [], [], [], []⟩

/-- Failure oracle for store operations: entry `t` is `none` when the `t`-th
store operation succeeds, `some m` when it raises a storage error whose
message is `m`. -/
abbrev Oracle := Nat → Option String

/-- The always-available store: every operation succeeds. -/
def okOracle : Oracle := fun _ => none

/-- Placeholder products inserted by `ensure_seed_data`
(`main.py` lines 77-83). -/
def seedProducts : List Product :=
  [ { title := "Neem Herbal Oil",
      description := some "Cold-pressed neem oil for skin and scalp.",
      price := (12.99 : Rat), category := "Ayurvedic Products",
      subcategory := some "Oils", image := none, in_stock := true },
    { title := "Ashwagandha Capsules",
      description := some "Stress relief and vitality support.",
      price := (18.5 : Rat), category := "Ayurvedic Products",
      subcategory := some "Capsules & Tablets", image := none, in_stock := true },
    { title := "DigestEase Arishta",
      description := some "Supports digestive comfort.",
      price := (14.0 : Rat), category := "Ayurvedic Products",
      subcategory := some "Arishta & Asava", image := none, in_stock := true },
    { title := "Copper Puja Kalash",
      description := some "Traditional copper pot for rituals.",
      price := (24.0 : Rat), category := "Traditional Products",
      subcategory := some "Puja Items", image := none, in_stock := true },
    { title := "Joint Relief Balm",
      description := some "Warming balm for joints and muscles.",
      price := (7.5 : Rat), category := "Disease-Related Products",
      subcategory := some "Joint & Muscle Pain", image := none, in_stock := true } ]

/-- Placeholder reviews inserted by `ensure_seed_data`
(`main.py` lines 88-91). -/
def seedReviews : List Review :=
  [ { name := "Anika", rating := 5,
      comment := "Amazing quality and very helpful staff!",
      source := some "website" },
    { name := "Ravi", rating := 4,
      comment := "Consultation was insightful and products worked well.",
      source := some "website" } ]

/-- Placeholder blog posts inserted by `ensure_seed_data`
(`main.py` lines 96-101). -/
def seedPosts : List BlogPost :=
  [ { title := "Herbal Wisdom: Neem", slug := "herbal-wisdom-neem",
      category := "Herbal Wisdom",
      excerpt := "Discover the multifaceted benefits of Neem.",
      content := "Long form content about Neem...",
      cover_image := none, tags := none, published_at := none },
    { title := "Healing Through Ayurveda: Digestive Balance",
      slug := "healing-ayurveda-digestive",
      category := "Healing Through Ayurveda",
      excerpt := "Rekindle your digestive fire.",
      content := "Content on Agni and digestion...",
      cover_image := none, tags := none, published_at := none },
    { title := "Power of Nature: Ashwagandha",
      slug := "power-of-nature-ashwagandha",
      category := "Power of Nature",
      excerpt := "Ashwagandha for stress relief.",
      content := "Content about adaptogens...",
      cover_image := none, tags := none, published_at := none },
    { title := "Ayurveda for Daily Life: Morning Rituals",
      slug := "ayurveda-daily-life-morning",
      category := "Ayurveda for Daily Life",
      excerpt := "Simple practices to start your day.",
      content := "Dinacharya overview...",
      cover_image := none, tags := none, published_at := none } ]

/-- Raw (pre-validation) `Product` payload: each declared field is either
present (`some`) or absent (`none`). Undeclared fields are ignored by the
schema layer, so they are not modelled. `price` arrives as a number. -/
structure RawProduct where
  title : Option String
  description : Option String
  price : Option Rat
  category : Option String
  subcategory : Option String
  image : Option String
  in_stock : Option Bool
deriving DecidableEq, Repr

/-- Raw `Review` payload (`rating` arrives as an integer). -/
structure RawReview where
  name : Option String
  rating : Option Int
  comment : Option String
  source : Option String
deriving DecidableEq, Repr

/-- Raw `Consultation` payload. -/
structure RawConsultation where
  full_name : Option String
  email : Option String
  phone : Option String
  mode : Option String
  preferred_date : Option String
  message : Option String
  service : Option String
deriving DecidableEq, Repr

/-- Raw `ContactMessage` payload. -/
structure RawContactMessage where
  full_name : Option String
  email : Option String
  topic : Option String
  message : Option String
  channel : Option String
deriving DecidableEq, Repr

/-- Raw `BlogPost` payload. -/
structure RawBlogPost where
  title : Option String
  slug : Option String
  category : Option String
  excerpt : Option String
  content : Option String
  cover_image : Option String
  tags : Option (List String)
  published_at : Option Nat
deriving DecidableEq, Repr

/-- Modelled from the spec: the email validator behind the pydantic `EmailStr` type
(an external library, not in the sources) accepts exactly the strings that
"match a standard email syntax"; modelled as: exactly one at-sign with a
nonempty local part and a nonempty domain part. -/
def isValidEmail (s : String) : Bool :=
  match s.split (fun c => c == '@') with
  | [local_part, domain] => !local_part.isEmpty && !domain.isEmpty
  | _ => false

/-- Names of the `Product` fields (in declaration order) that are missing
or violate a constraint, per `schemas.py` lines 24-31: `title`, `price` and
`category` are required, `price` must be `ge=0`. -/
def RawProduct.fieldErrors (raw : RawProduct) : List String :=
  (if raw.title.isNone then ["title"] else []) ++
  (match raw.price with
   | none => ["price"]
   | some p => if 0 ≤ p then [] else ["price"]) ++
  (if raw.category.isNone then ["category"] else [])

/-- Validation of a raw `Product` payload (`schemas.py` lines 24-31):
rejects when any field error exists, otherwise applies the defaults
(`in_stock = true`) and produces the validated entity. -/
def RawProduct.validate (raw : RawProduct) : Except (List String) Product :=
  match raw.title, raw.price, raw.category with
  | some t, some p, some c =>
      if 0 ≤ p then
        .ok { title := t, description := raw.description, price := p,
              category := c, subcategory := raw.subcategory,
              image := raw.image, in_stock := raw.in_stock.getD true }
      else .error raw.fieldErrors
  | _, _, _ => .error raw.fieldErrors

/-- Names of the `Review` fields that are missing or violate a constraint,
per `schemas.py` lines 34-38: `name`, `rating`, `comment` required,
`rating` constrained by `ge=1, le=5`. -/
def RawReview.fieldErrors (raw : RawReview) : List String :=
  (if raw.name.isNone then ["name"] else []) ++
  (match raw.rating with
   | none => ["rating"]
   | some r => if 1 ≤ r ∧ r ≤ 5 then [] else ["rating"]) ++
  (if raw.comment.isNone then ["comment"] else [])

/-- Validation of a raw `Review` payload (`schemas.py` lines 34-38);
default `source = "website"`. -/
def RawReview.validate (raw : RawReview) : Except (List String) Review :=
  match raw.name, raw.rating, raw.comment with
  | some n, some r, some c =>
      if 1 ≤ r ∧ r ≤ 5 then
        .ok { name := n, rating := r, comment := c,
              source := some (raw.source.getD "website") }
      else .error raw.fieldErrors
  | _, _, _ => .error raw.fieldErrors

/-- Names of the `Consultation` fields that are missing or violate a
constraint, per `schemas.py` lines 41-48: `full_name`, `email` (valid
syntax) and `mode` are required. -/
def RawConsultation.fieldErrors (raw : RawConsultation) : List String :=
  (if raw.full_name.isNone then ["full_name"] else []) ++
  (match raw.email with
   | none => ["email"]
   | some e => if isValidEmail e then [] else ["email"]) ++
  (if raw.mode.isNone then ["mode"] else [])

/-- Validation of a raw `Consultation` payload (`schemas.py` lines 41-48);
default `service = "ayurvedic"`. -/
def RawConsultation.validate (raw : RawConsultation) :
    Except (List String) Consultation :=
  match raw.full_name, raw.email, raw.mode with
  | some n, some e, some m =>
      if isValidEmail e then
        .ok { full_name := n, email := e, phone := raw.phone, mode := m,
              preferred_date := raw.preferred_date, message := raw.message,
              service := raw.service.getD "ayurvedic" }
      else .error raw.fieldErrors
  | _, _, _ => .error raw.fieldErrors

/-- Names of the `ContactMessage` fields that are missing or violate a
constraint, per `schemas.py` lines 51-56. -/
def RawContactMessage.fieldErrors (raw : RawContactMessage) : List String :=
  (if raw.full_name.isNone then ["full_name"] else []) ++
  (match raw.email with
   | none => ["email"]
   | some e => if isValidEmail e then [] else ["email"]) ++
  (if raw.topic.isNone then ["topic"] else []) ++
  (if raw.message.isNone then ["message"] else [])

/-- Validation of a raw `ContactMessage` payload (`schemas.py` lines 51-56);
default `channel = "general"`. -/
def RawContactMessage.validate (raw : RawContactMessage) :
    Except (List String) ContactMessage :=
  match raw.full_name, raw.email, raw.topic, raw.message with
  | some n, some e, some t, some m =>
      if isValidEmail e then
        .ok { full_name := n, email := e, topic := t, message := m,
              channel := some (raw.channel.getD "general") }
      else .error raw.fieldErrors
  | _, _, _, _ => .error raw.fieldErrors

/-- Names of the `BlogPost` fields that are missing, per `schemas.py`
lines 59-67: `title`, `slug`, `category`, `excerpt`, `content` required. -/
def RawBlogPost.fieldErrors (raw : RawBlogPost) : List String :=
  (if raw.title.isNone then ["title"] else []) ++
  (if raw.slug.isNone then ["slug"] else []) ++
  (if raw.category.isNone then ["category"] else []) ++
  (if raw.excerpt.isNone then ["excerpt"] else []) ++
  (if raw.content.isNone then ["content"] else [])

/-- Validation of a raw `BlogPost` payload (`schemas.py` lines 59-67);
optional fields pass through unchanged. -/
def RawBlogPost.validate (raw : RawBlogPost) : Except (List String) BlogPost :=
  match raw.title, raw.slug, raw.category, raw.excerpt, raw.content with
  | some t, some sl, some c, some ex, some co =>
      .ok { title := t, slug := sl, category := c, excerpt := ex,
            content := co, cover_image := raw.cover_image, tags := raw.tags,
            published_at := raw.published_at }
  | _, _, _, _, _ => .error raw.fieldErrors

/-- Whether `p` occurs as a contiguous substring of `s` (lists of characters). -/
def isSubstrL (p : List Char) : List Char → Bool
  | [] => p.isEmpty
  | c :: rest => p.isPrefixOf (c :: rest) || isSubstrL p rest

/-- The characters of a string, lowercased. -/
def lowerChars (s : String) : List Char :=
  s.toList.map Char.toLower

/-- Case-insensitive substring containment on strings; models the store
filter predicate produced by `{"$regex": q, "$options": "i"}` for a plain
(metacharacter-free) query string, per the filter semantics of the spec
("case-insensitive substring match"). -/
def substrCI (q s : String) : Bool :=
  isSubstrL (lowerChars q) (lowerChars s)

/-- The product-listing filter as built by `list_products`
(`main.py` lines 130-140): optional equality on `category` and
`subcategory`, optional free-text predicate `q`. -/
structure ProductFilter where
  q : Option String
  category : Option String
  subcategory : Option String
deriving DecidableEq, Repr

/-- Python truthiness of an optional string parameter: `if category:` is
taken only when the parameter is present and nonempty. -/
def strParam (v : Option String) : Option String :=
  match v with
  | none => none
  | some s => if s.isEmpty then none else some s

/-- Filter construction in `list_products` (`main.py` lines 130-140):
each clause is added only when the query parameter is truthy. -/
def mkProductFilter (q category subcategory : Option String) : ProductFilter :=
  { q := strParam q, category := strParam category,
    subcategory := strParam subcategory }

/-- Modelled from the spec: evaluation of the product filter by the store
(`database.get_documents` is absent from the sources).  Equality on the
scalar fields, and the free-text clause is a case-insensitive substring
match against `title` OR `description` (a document without a description
cannot match on the description clause). -/
def matchesProduct (f : ProductFilter) (p : Product) : Bool :=
  (match f.category with | none => true | some c => p.category == c) &&
  (match f.subcategory with
   | none => true
   | some sc => match p.subcategory with
                | none => false
                | some psc => psc == sc) &&
  (match f.q with
   | none => true
   | some q =>
       substrCI q p.title ||
       (match p.description with
        | none => false
        | some d => substrCI q d))

/-- Modelled from the spec: evaluation of the blog filter
(`main.py` line 193 builds `{"category": category}` when truthy). -/
def matchesPost (f : Option String) (b : BlogPost) : Bool :=
  match f with
  | none => true
  | some c => b.category == c

/-- Insert a sequence of products one `create_document` call at a time
(`main.py` lines 84-85); a failing insert raises and the rest are skipped,
but earlier inserts persist.  Returns the raised message (if any), the
next tick, and the resulting store. -/
def insertProducts (oracle : Oracle) :
    List Product → Nat → Store → Option String × Nat × Store
  | [], t, s => (none, t, s)
  | p :: ps, t, s =>
      match oracle t with
      | some m => (some m, t + 1, s)
      | none => insertProducts oracle ps (t + 1)
                  { s with product := s.product ++ [p] }

/-- Insert a sequence of reviews (`main.py` lines 92-93). -/
def insertReviews (oracle : Oracle) :
    List Review → Nat → Store → Option String × Nat × Store
  | [], t, s => (none, t, s)
  | r :: rs, t, s =>
      match oracle t with
      | some m => (some m, t + 1, s)
      | none => insertReviews oracle rs (t + 1)
                  { s with review := s.review ++ [r] }

/-- Insert a sequence of blog posts (`main.py` lines 102-103). -/
def insertPosts (oracle : Oracle) :
    List BlogPost → Nat → Store → Option String × Nat × Store
  | [], t, s => (none, t, s)
  | b :: bs, t, s =>
      match oracle t with
      | some m => (some m, t + 1, s)
      | none => insertPosts oracle bs (t + 1)
                  { s with blogpost := s.blogpost ++ [b] }

/-- The product phase of `ensure_seed_data` (`main.py` lines 76-85): one
`count_documents` call on `product`, followed by the placeholder inserts
when that collection is empty. -/
def seedPhaseP (oracle : Oracle) (t : Nat) (s : Store) :
    Option String × Nat × Store :=
  match oracle t with
  | some m => (some m, t + 1, s)
  | none =>
      if s.product.length == 0 then insertProducts oracle seedProducts (t + 1) s
      else (none, t + 1, s)

/-- The review phase of `ensure_seed_data` (`main.py` lines 87-93). -/
def seedPhaseR (oracle : Oracle) (t : Nat) (s : Store) :
    Option String × Nat × Store :=
  match oracle t with
  | some m => (some m, t + 1, s)
  | none =>
      if s.review.length == 0 then insertReviews oracle seedReviews (t + 1) s
      else (none, t + 1, s)

/-- The blog phase of `ensure_seed_data` (`main.py` lines 95-103). -/
def seedPhaseB (oracle : Oracle) (t : Nat) (s : Store) :
    Option String × Nat × Store :=
  match oracle t with
  | some m => (some m, t + 1, s)
  | none =>
      if s.blogpost.length == 0 then insertPosts oracle seedPosts (t + 1) s
      else (none, t + 1, s)

/-- The body of `ensure_seed_data` (`main.py` lines 74-103), before the
enclosing `try/except`: the three phases in order; the first raised storage
error aborts the rest of the body, leaving earlier mutations in place. -/
def seedBody (oracle : Oracle) (t : Nat) (s : Store) :
    Option String × Nat × Store :=
  match seedPhaseP oracle t s with
  | (some m, t1, s1) => (some m, t1, s1)
  | (none, t1, s1) =>
    match seedPhaseR oracle t1 s1 with
    | (some m, t2, s2) => (some m, t2, s2)
    | (none, t2, s2) => seedPhaseB oracle t2 s2

/-- Function `ensure_seed_data` (`main.py` lines 72-106): runs the seeding body and
swallows any raised error (`except Exception: pass`), keeping whatever
mutations happened before the failure. -/
def ensure_seed_data (oracle : Oracle) (t : Nat) (s : Store) : Nat × Store :=
  match seedBody oracle t s with
  | (_, t1, s1) => (t1, s1)

/-- Endpoint responses, coarsely typed: a FastAPI request-validation
failure (HTTP 422) carries the offending field names; an
`HTTPException(status_code=500, detail=...)` carries its detail string;
list endpoints carry the returned documents; create endpoints return the
assigned id, modelled opaquely; the static endpoints return constants not
modelled further. -/
inductive Response where
  | products (items : List Product)
  | reviews (items : List Review)
  | posts (items : List BlogPost)
  | created
  | validationFailure (fields : List String)
  | serverError (detail : String)
  | static
deriving DecidableEq, Repr

/-- Endpoint `GET /api/products` (`main.py` lines 126-147): seeds, then queries the
product collection with the filter built from `q`, `category`,
`subcategory`; a storage error during the query is surfaced as
`HTTPException(500, str(e))`. -/
def list_products (oracle : Oracle) (t : Nat) (s : Store)
    (q category subcategory : Option String) : Response × Nat × Store :=
  match ensure_seed_data oracle t s with
  | (t1, s1) =>
    match oracle t1 with
    | some m => (.serverError m, t1 + 1, s1)
    | none =>
        (.products (s1.product.filter
           (matchesProduct (mkProductFilter q category subcategory))),
         t1 + 1, s1)

/-- Endpoint `POST /api/products` (`main.py` lines 150-156): request validation,
then a single insert; a storage error is surfaced as
`HTTPException(500, str(e))`. -/
def create_product (oracle : Oracle) (t : Nat) (s : Store)
    (raw : RawProduct) : Response × Nat × Store :=
  match raw.validate with
  | .error fs => (.validationFailure fs, t, s)
  | .ok p =>
      match oracle t with
      | some m => (.serverError m, t + 1, s)
      | none => (.created, t + 1, { s with product := s.product ++ [p] })

/-- Endpoint `GET /api/reviews` (`main.py` lines 160-168): queries the review
collection with an empty filter, capped at `limit` (default 50).  Note:
this endpoint does not call `ensure_seed_data`. -/
def get_reviews (oracle : Oracle) (t : Nat) (s : Store) (limit : Nat) :
    Response × Nat × Store :=
  match oracle t with
  | some m => (.serverError m, t + 1, s)
  | none => (.reviews (s.review.take limit), t + 1, s)

/-- Endpoint `POST /api/reviews` (`main.py` lines 171-177). -/
def add_review (oracle : Oracle) (t : Nat) (s : Store)
    (raw : RawReview) : Response × Nat × Store :=
  match raw.validate with
  | .error fs => (.validationFailure fs, t, s)
  | .ok r =>
      match oracle t with
      | some m => (.serverError m, t + 1, s)
      | none => (.created, t + 1, { s with review := s.review ++ [r] })

/-- Endpoint `GET /api/blog` (`main.py` lines 189-199): seeds, then queries the
blogpost collection with an equality filter on `category` when truthy. -/
def list_blog (oracle : Oracle) (t : Nat) (s : Store)
    (category : Option String) : Response × Nat × Store :=
  match ensure_seed_data oracle t s with
  | (t1, s1) =>
    match oracle t1 with
    | some m => (.serverError m, t1 + 1, s1)
    | none =>
        (.posts (s1.blogpost.filter (matchesPost (strParam category))),
         t1 + 1, s1)

/-- Endpoint `POST /api/blog` (`main.py` lines 202-210): after validation, a falsy
(`None`) `published_at` is replaced by the creation time `now`
(`datetime.utcnow()`); a supplied timestamp is kept (a `datetime` value is
always truthy in Python). -/
def create_blog (oracle : Oracle) (t : Nat) (s : Store)
    (raw : RawBlogPost) (now : Nat) : Response × Nat × Store :=
  match raw.validate with
  | .error fs => (.validationFailure fs, t, s)
  | .ok post =>
      let stored : BlogPost :=
        { post with published_at := some (post.published_at.getD now) }
      match oracle t with
      | some m => (.serverError m, t + 1, s)
      | none => (.created, t + 1, { s with blogpost := s.blogpost ++ [stored] })

/-- Endpoint `POST /api/consultations` (`main.py` lines 241-247). -/
def book_consultation (oracle : Oracle) (t : Nat) (s : Store)
    (raw : RawConsultation) : Response × Nat × Store :=
  match raw.validate with
  | .error fs => (.validationFailure fs, t, s)
  | .ok c =>
      match oracle t with
      | some m => (.serverError m, t + 1, s)
      | none =>
          (.created, t + 1, { s with consultation := s.consultation ++ [c] })

/-- Endpoint `POST /api/contact` (`main.py` lines 250-256). -/
def contact (oracle : Oracle) (t : Nat) (s : Store)
    (raw : RawContactMessage) : Response × Nat × Store :=
  match raw.validate with
  | .error fs => (.validationFailure fs, t, s)
  | .ok c =>
      match oracle t with
      | some m => (.serverError m, t + 1, s)
      | none =>
          (.created, t + 1,
           { s with contactmessage := s.contactmessage ++ [c] })

/-- One request to any endpoint of the API (`main.py` lines 22-256).
`GET /`, `GET /test`, `GET /api/categories` and `GET /api/services` return
constants without touching any document collection. -/
inductive Req where
  | root
  | testDiag
  | categories
  | services
  | listProducts (q category subcategory : Option String)
  | createProduct (raw : RawProduct)
  | getReviews (limit : Nat)
  | addReview (raw : RawReview)
  | listBlog (category : Option String)
  | createBlog (raw : RawBlogPost) (now : Nat)
  | bookConsultation (raw : RawConsultation)
  | contactMsg (raw : RawContactMessage)
deriving Repr

/-- Dispatcher over every endpoint of the app. -/
def handle (oracle : Oracle) (t : Nat) (s : Store) :
    Req → Response × Nat × Store
  | .root => (.static, t, s)
  | .testDiag => (.static, t, s)
  | .categories => (.static, t, s)
  | .services => (.static, t, s)
  | .listProducts q c sc => list_products oracle t s q c sc
  | .createProduct raw => create_product oracle t s raw
  | .getReviews limit => get_reviews oracle t s limit
  | .addReview raw => add_review oracle t s raw
  | .listBlog c => list_blog oracle t s c
  | .createBlog raw now => create_blog oracle t s raw now
  | .bookConsultation raw => book_consultation oracle t s raw
  | .contactMsg raw => contact oracle t s raw

/-- The 80-character truncation the code applies to error messages in the
`/test` diagnostics endpoint (`main.py` lines 47 and 49, `str(e)[:80]`);
this is the only notion the repository has of a "truncated" error message. -/
def truncate80 (s : String) : String := s.take 80

/-- Result of a successful run of the seeding routine: each of the three
seeded collections receives its placeholders when empty, others are kept. -/
def seededStore (s : Store) : Store :=
  { s with
    product := if s.product.length == 0 then seedProducts else s.product,
    review := if s.review.length == 0 then seedReviews else s.review,
    blogpost := if s.blogpost.length == 0 then seedPosts else s.blogpost }

/-- A product whose category is the nonempty string "X"; used to exhibit
the behaviour of a falsy (empty-string) `category` query parameter. -/
def prodX : Product :=
  { title := "Herbal Soap", description := none, price := (1 : Rat),
    category := "X", subcategory := none, image := none, in_stock := true }

/-- A store whose three seedable collections are all nonempty. -/
def storeX : Store :=
  { product := [prodX], review := seedReviews, blogpost := seedPosts,
    consultation := [], contactmessage := [] }

/-- A 100-character store error message (longer than the 80-character
truncation bound used by the diagnostics endpoint). -/
def longMsg : String :=
  String.mk (List.replicate 100 'e')

/-- An oracle under which every store operation fails with `longMsg`
(store unreachable). -/
def failOracle : Oracle := fun _ => some longMsg

/-- An oracle whose third store operation (tick 2) fails: during seeding of
an empty store this is the insert of the second placeholder product, so the
first placeholder is inserted and the rest of the seeding body aborts. -/
def cexOracle : Oracle :=
  fun t => if t == 2 then some "insert rejected" else none

/-- A raw product payload that passes validation. -/
def rawGoodProduct : RawProduct :=
  { title := some "Tulsi Tea", description := none, price := some (5 : Rat),
    category := some "Ayurvedic Products", subcategory := none,
    image := none, in_stock := none }

/-- The validated form of `rawGoodProduct`. -/
def goodProduct : Product :=
  { title := "Tulsi Tea", description := none, price := (5 : Rat),
    category := "Ayurvedic Products", subcategory := none, image := none,
    in_stock := true }

/-- A raw review payload whose rating (6) is out of range. -/
def rawReview6 : RawReview :=
  { name := some "Maya", rating := some 6, comment := some "nice",
    source := none }

/-- A raw product payload missing the `category` field. -/
def rawProdNoCat : RawProduct :=
  { title := some "Brahmi Powder", description := none,
    price := some (3 : Rat), category := none, subcategory := none,
    image := none, in_stock := none }

/-- A raw consultation payload missing the `mode` field. -/
def rawConsNoMode : RawConsultation :=
  { full_name := some "Sena", email := some "sena@example.com",
    phone := none, mode := none, preferred_date := none, message := none,
    service := none }

/-- A raw blog-post payload carrying an explicit `published_at`. -/
def rawPost42 : RawBlogPost :=
  { title := some "Triphala Basics", slug := some "triphala-basics",
    category := some "Herbal Wisdom",
    excerpt := some "Three fruits.", content := some "About triphala.",
    cover_image := none, tags := none, published_at := some 42 }

/-- A raw blog-post payload with no `published_at`. -/
def rawPostNoTs : RawBlogPost :=
  { rawPost42 with published_at := none }

/-- The first placeholder product. -/
def neemOil : Product :=
  { title := "Neem Herbal Oil",
    description := some "Cold-pressed neem oil for skin and scalp.",
    price := (12.99 : Rat), category := "Ayurvedic Products",
    subcategory := some "Oils", image := none, in_stock := true }

/-! ## Validation lemmas -/

lemma RawReview.validate_bad_rating (raw : RawReview) (r : Int)
    (hr : raw.rating = some r) (hout : r < 1 ∨ 5 < r) :
    raw.validate = .error raw.fieldErrors := by
  have hnot : ¬(1 ≤ r ∧ r ≤ 5) := by omega
  rcases hn : raw.name with _ | n <;> rcases hc : raw.comment with _ | c <;>
    simp [RawReview.validate, hn, hc, hr, hnot]

lemma RawReview.rating_mem_fieldErrors (raw : RawReview) (r : Int)
    (hr : raw.rating = some r) (hout : r < 1 ∨ 5 < r) :
    "rating" ∈ raw.fieldErrors := by
  have hnot : ¬(1 ≤ r ∧ r ≤ 5) := by omega
  simp [RawReview.fieldErrors, hr, hnot]

lemma RawProduct.validate_no_category (raw : RawProduct)
    (h : raw.category = none) :
    raw.validate = .error raw.fieldErrors := by
  rcases ht : raw.title with _ | ti <;> rcases hp : raw.price with _ | pr <;>
    simp [RawProduct.validate, h, ht, hp]

lemma RawProduct.category_mem_fieldErrors (raw : RawProduct)
    (h : raw.category = none) : "category" ∈ raw.fieldErrors := by
  simp [RawProduct.fieldErrors, h]

lemma RawConsultation.validate_no_mode (raw : RawConsultation)
    (h : raw.mode = none) :
    raw.validate = .error raw.fieldErrors := by
  rcases hn : raw.full_name with _ | n <;> rcases he : raw.email with _ | e <;>
    simp [RawConsultation.validate, h, hn, he]

lemma RawConsultation.mode_mem_fieldErrors (raw : RawConsultation)
    (h : raw.mode = none) : "mode" ∈ raw.fieldErrors := by
  simp [RawConsultation.fieldErrors, h]

lemma RawBlogPost.validate_published (raw : RawBlogPost) (post : BlogPost)
    (h : raw.validate = .ok post) : post.published_at = raw.published_at := by
  rcases raw with ⟨ti, sl, ca, ex, co, ci, tg, pa⟩
  rcases ti <;> rcases sl <;> rcases ca <;> rcases ex <;> rcases co <;>
    simp_all [RawBlogPost.validate]
  simp [← h]

/-! ## Claims about validation (C1, C10, C5) -/

/-- C1: for every `Review` payload whose `rating` is an integer outside
`[1,5]`, request validation fails with a `ValidationError` identifying the
`rating` field, `POST /api/reviews` inserts nothing, and the store — in
particular the review collection — is unchanged. -/
theorem C1_out_of_range_rating_rejected (oracle : Oracle) (t : Nat)
    (s : Store) (raw : RawReview) (r : Int)
    (hr : raw.rating = some r) (hout : r < 1 ∨ 5 < r) :
    (handle oracle t s (.addReview raw)).1
        = .validationFailure raw.fieldErrors ∧
    "rating" ∈ raw.fieldErrors ∧
    (handle oracle t s (.addReview raw)).2.2 = s := by
  have hv := RawReview.validate_bad_rating raw r hr hout
  refine ⟨?_, RawReview.rating_mem_fieldErrors raw r hr hout, ?_⟩ <;>
    simp [handle, add_review, hv]

/-- C1 witness: the concrete payload `rawReview6` (rating 6) is rejected
with an error naming `rating` and leaves the empty store empty. -/
theorem C1_out_of_range_rating_rejected_witness :
    (handle okOracle 0 Store.empty (.addReview rawReview6)).1
        = .validationFailure rawReview6.fieldErrors ∧
    "rating" ∈ rawReview6.fieldErrors ∧
    (handle okOracle 0 Store.empty (.addReview rawReview6)).2.2
        = Store.empty :=
  C1_out_of_range_rating_rejected okOracle 0 Store.empty rawReview6 6
    (by rfl) (by omega)

/-- C10: a `Product` payload lacking `category` and a `Consultation`
payload lacking `mode` are each rejected with a `ValidationError` naming
that field, and the store is unchanged. -/
theorem C10_undocumented_required_fields (oracle : Oracle) (t : Nat)
    (s : Store) (rawP : RawProduct) (rawC : RawConsultation)
    (hP : rawP.category = none) (hC : rawC.mode = none) :
    ((handle oracle t s (.createProduct rawP)).1
        = .validationFailure rawP.fieldErrors ∧
     "category" ∈ rawP.fieldErrors ∧
     (handle oracle t s (.createProduct rawP)).2.2 = s) ∧
    ((handle oracle t s (.bookConsultation rawC)).1
        = .validationFailure rawC.fieldErrors ∧
     "mode" ∈ rawC.fieldErrors ∧
     (handle oracle t s (.bookConsultation rawC)).2.2 = s) := by
  have hvP := RawProduct.validate_no_category rawP hP
  have hvC := RawConsultation.validate_no_mode rawC hC
  refine ⟨⟨?_, RawProduct.category_mem_fieldErrors rawP hP, ?_⟩,
          ⟨?_, RawConsultation.mode_mem_fieldErrors rawC hC, ?_⟩⟩ <;>
    simp [handle, create_product, book_consultation, hvP, hvC]

/-- C10 witness: the concrete payloads `rawProdNoCat` and `rawConsNoMode`
are rejected and leave the empty store empty. -/
theorem C10_undocumented_required_fields_witness :
    ((handle okOracle 0 Store.empty (.createProduct rawProdNoCat)).1
        = .validationFailure rawProdNoCat.fieldErrors ∧
     "category" ∈ rawProdNoCat.fieldErrors ∧
     (handle okOracle 0 Store.empty (.createProduct rawProdNoCat)).2.2
        = Store.empty) ∧
    ((handle okOracle 0 Store.empty (.bookConsultation rawConsNoMode)).1
        = .validationFailure rawConsNoMode.fieldErrors ∧
     "mode" ∈ rawConsNoMode.fieldErrors ∧
     (handle okOracle 0 Store.empty (.bookConsultation rawConsNoMode)).2.2
        = Store.empty) :=
  C10_undocumented_required_fields okOracle 0 Store.empty rawProdNoCat
    rawConsNoMode (by rfl) (by rfl)

/-- C5: for every `BlogPost` payload accepted by `POST /api/blog` (with
the insert succeeding), the `published_at` of the stored document is the
creation time when the payload omitted it, and exactly the supplied value
when the payload carried one. -/
theorem C5_blog_published_at (oracle : Oracle) (t now : Nat) (s : Store)
    (raw : RawBlogPost) (post : BlogPost)
    (hv : raw.validate = .ok post) (hok : oracle t = none) :
    ∃ stored : BlogPost,
      (handle oracle t s (.createBlog raw now)).2.2.blogpost
          = s.blogpost ++ [stored] ∧
      (raw.published_at = none → stored.published_at = some now) ∧
      (∀ ts : Nat, raw.published_at = some ts →
        stored.published_at = some ts) := by
  refine ⟨{ post with published_at := some (post.published_at.getD now) },
          ?_, ?_, ?_⟩
  · simp [handle, create_blog, hv, hok]
  · intro h0
    simp [RawBlogPost.validate_published raw post hv, h0]
  · intro ts hts
    simp [RawBlogPost.validate_published raw post hv, hts]

/-- C5 witness: the concrete payload `rawPost42` (with `published_at = 42`)
stores the timestamp 42 unchanged when created at time 7. -/
theorem C5_blog_published_at_witness :
    ∃ stored : BlogPost,
      (handle okOracle 0 Store.empty (.createBlog rawPost42 7)).2.2.blogpost
          = Store.empty.blogpost ++ [stored] ∧
      (rawPost42.published_at = none → stored.published_at = some 7) ∧
      (∀ ts : Nat, rawPost42.published_at = some ts →
        stored.published_at = some ts) :=
  C5_blog_published_at okOracle 0 7 Store.empty rawPost42
    { title := "Triphala Basics", slug := "triphala-basics",
      category := "Herbal Wisdom", excerpt := "Three fruits.",
      content := "About triphala.", cover_image := none, tags := none,
      published_at := some 42 } (by rfl) (by rfl)

/-! ## Seeding lemmas -/

lemma insertProducts_ok (ps : List Product) : ∀ (t : Nat) (s : Store),
    insertProducts okOracle ps t s
      = (none, t + ps.length, { s with product := s.product ++ ps }) := by
  induction ps with
  | nil => intro t s; simp [insertProducts]
  | cons p ps ih =>
      intro t s
      simp [insertProducts, okOracle, ih]
      omega

lemma insertReviews_ok (rs : List Review) : ∀ (t : Nat) (s : Store),
    insertReviews okOracle rs t s
      = (none, t + rs.length, { s with review := s.review ++ rs }) := by
  induction rs with
  | nil => intro t s; simp [insertReviews]
  | cons r rs ih =>
      intro t s
      simp [insertReviews, okOracle, ih]
      omega

lemma insertPosts_ok (bs : List BlogPost) : ∀ (t : Nat) (s : Store),
    insertPosts okOracle bs t s
      = (none, t + bs.length, { s with blogpost := s.blogpost ++ bs }) := by
  induction bs with
  | nil => intro t s; simp [insertPosts]
  | cons b bs ih =>
      intro t s
      simp [insertPosts, okOracle, ih]
      omega

lemma insertProducts_extends (oracle : Oracle) (ps : List Product) :
    ∀ (t : Nat) (s : Store), ∃ l,
      (insertProducts oracle ps t s).2.2
        = { s with product := s.product ++ l } := by
  induction ps with
  | nil => intro t s; exact ⟨[], by simp [insertProducts]⟩
  | cons p ps ih =>
      intro t s
      rcases hO : oracle t with _ | m
      · rcases ih (t + 1) { s with product := s.product ++ [p] } with ⟨l, hl⟩
        exact ⟨p :: l, by simp [insertProducts, hO, hl]⟩
      · exact ⟨[], by simp [insertProducts, hO]⟩

lemma insertReviews_extends (oracle : Oracle) (rs : List Review) :
    ∀ (t : Nat) (s : Store), ∃ l,
      (insertReviews oracle rs t s).2.2
        = { s with review := s.review ++ l } := by
  induction rs with
  | nil => intro t s; exact ⟨[], by simp [insertReviews]⟩
  | cons r rs ih =>
      intro t s
      rcases hO : oracle t with _ | m
      · rcases ih (t + 1) { s with review := s.review ++ [r] } with ⟨l, hl⟩
        exact ⟨r :: l, by simp [insertReviews, hO, hl]⟩
      · exact ⟨[], by simp [insertReviews, hO]⟩

lemma insertPosts_extends (oracle : Oracle) (bs : List BlogPost) :
    ∀ (t : Nat) (s : Store), ∃ l,
      (insertPosts oracle bs t s).2.2
        = { s with blogpost := s.blogpost ++ l } := by
  induction bs with
  | nil => intro t s; exact ⟨[], by simp [insertPosts]⟩
  | cons b bs ih =>
      intro t s
      rcases hO : oracle t with _ | m
      · rcases ih (t + 1) { s with blogpost := s.blogpost ++ [b] } with ⟨l, hl⟩
        exact ⟨b :: l, by simp [insertPosts, hO, hl]⟩
      · exact ⟨[], by simp [insertPosts, hO]⟩

lemma seedPhaseP_nonempty (oracle : Oracle) (t : Nat) (s : Store)
    (h : s.product ≠ []) : seedPhaseP oracle t s = (oracle t, t + 1, s) := by
  rcases hO : oracle t with _ | m <;> simp [seedPhaseP, hO, h]

lemma seedPhaseR_nonempty (oracle : Oracle) (t : Nat) (s : Store)
    (h : s.review ≠ []) : seedPhaseR oracle t s = (oracle t, t + 1, s) := by
  rcases hO : oracle t with _ | m <;> simp [seedPhaseR, hO, h]

lemma seedPhaseB_nonempty (oracle : Oracle) (t : Nat) (s : Store)
    (h : s.blogpost ≠ []) : seedPhaseB oracle t s = (oracle t, t + 1, s) := by
  rcases hO : oracle t with _ | m <;> simp [seedPhaseB, hO, h]

lemma seedBody_nonempty (oracle : Oracle) (t : Nat) (s : Store)
    (hp : s.product ≠ []) (hr : s.review ≠ []) (hb : s.blogpost ≠ []) :
    (seedBody oracle t s).2.2 = s := by
  unfold seedBody
  rw [seedPhaseP_nonempty oracle t s hp]
  rcases hO : oracle t with _ | m
  · rcases hO2 : oracle (t + 1) with _ | m2
    · simp [seedPhaseR_nonempty oracle (t + 1) s hr, hO2,
            seedPhaseB_nonempty oracle (t + 2) s hb]
    · simp [seedPhaseR_nonempty oracle (t + 1) s hr, hO2]
  · simp

lemma ensure_nonempty (oracle : Oracle) (t : Nat) (s : Store)
    (hp : s.product ≠ []) (hr : s.review ≠ []) (hb : s.blogpost ≠ []) :
    (ensure_seed_data oracle t s).2 = s := by
  unfold ensure_seed_data
  rcases hB : seedBody oracle t s with ⟨e, t1, s1⟩
  have := seedBody_nonempty oracle t s hp hr hb
  rw [hB] at this
  simpa using this

lemma seedPhaseP_ok (t : Nat) (s : Store) :
    seedPhaseP okOracle t s
      = (none,
         if s.product.length == 0 then t + 1 + seedProducts.length else t + 1,
         { s with product :=
            if s.product.length == 0 then seedProducts else s.product }) := by
  by_cases h : s.product.length = 0
  · have h0 : s.product = [] := List.length_eq_zero.mp h
    simp [seedPhaseP, okOracle, insertProducts_ok, h, h0]
  · simp [seedPhaseP, okOracle, h]

lemma seedPhaseR_ok (t : Nat) (s : Store) :
    seedPhaseR okOracle t s
      = (none,
         if s.review.length == 0 then t + 1 + seedReviews.length else t + 1,
         { s with review :=
            if s.review.length == 0 then seedReviews else s.review }) := by
  by_cases h : s.review.length = 0
  · have h0 : s.review = [] := List.length_eq_zero.mp h
    simp [seedPhaseR, okOracle, insertReviews_ok, h, h0]
  · simp [seedPhaseR, okOracle, h]

lemma seedPhaseB_ok (t : Nat) (s : Store) :
    seedPhaseB okOracle t s
      = (none,
         if s.blogpost.length == 0 then t + 1 + seedPosts.length else t + 1,
         { s with blogpost :=
            if s.blogpost.length == 0 then seedPosts else s.blogpost }) := by
  by_cases h : s.blogpost.length = 0
  · have h0 : s.blogpost = [] := List.length_eq_zero.mp h
    simp [seedPhaseB, okOracle, insertPosts_ok, h, h0]
  · simp [seedPhaseB, okOracle, h]

lemma seedBody_ok_store (t : Nat) (s : Store) :
    (seedBody okOracle t s).2.2 = seededStore s := by
  simp [seedBody, seedPhaseP_ok, seedPhaseR_ok, seedPhaseB_ok, seededStore]

lemma ensure_ok_store (t : Nat) (s : Store) :
    (ensure_seed_data okOracle t s).2 = seededStore s := by
  unfold ensure_seed_data
  rcases hB : seedBody okOracle t s with ⟨e, t1, s1⟩
  have := seedBody_ok_store t s
  rw [hB] at this
  simpa using this

lemma seedPhaseP_extends (oracle : Oracle) (t : Nat) (s : Store) :
    ∃ l, (seedPhaseP oracle t s).2.2
      = { s with product := s.product ++ l } := by
  rcases hO : oracle t with _ | m
  · by_cases h : s.product.length = 0
    · rcases insertProducts_extends oracle seedProducts (t + 1) s with ⟨l, hl⟩
      exact ⟨l, by simp [seedPhaseP, hO, h, hl]⟩
    · exact ⟨[], by simp [seedPhaseP, hO, h]⟩
  · exact ⟨[], by simp [seedPhaseP, hO]⟩

lemma seedPhaseR_extends (oracle : Oracle) (t : Nat) (s : Store) :
    ∃ l, (seedPhaseR oracle t s).2.2
      = { s with review := s.review ++ l } := by
  rcases hO : oracle t with _ | m
  · by_cases h : s.review.length = 0
    · rcases insertReviews_extends oracle seedReviews (t + 1) s with ⟨l, hl⟩
      exact ⟨l, by simp [seedPhaseR, hO, h, hl]⟩
    · exact ⟨[], by simp [seedPhaseR, hO, h]⟩
  · exact ⟨[], by simp [seedPhaseR, hO]⟩

lemma seedPhaseB_extends (oracle : Oracle) (t : Nat) (s : Store) :
    ∃ l, (seedPhaseB oracle t s).2.2
      = { s with blogpost := s.blogpost ++ l } := by
  rcases hO : oracle t with _ | m
  · by_cases h : s.blogpost.length = 0
    · rcases insertPosts_extends oracle seedPosts (t + 1) s with ⟨l, hl⟩
      exact ⟨l, by simp [seedPhaseB, hO, h, hl]⟩
    · exact ⟨[], by simp [seedPhaseB, hO, h]⟩
  · exact ⟨[], by simp [seedPhaseB, hO]⟩

lemma seedBody_extends (oracle : Oracle) (t : Nat) (s : Store) :
    ∃ lp lr lb, (seedBody oracle t s).2.2
      = { s with product := s.product ++ lp, review := s.review ++ lr,
                 blogpost := s.blogpost ++ lb } := by
  unfold seedBody
  rcases hP : seedPhaseP oracle t s with ⟨e1, t1, s1⟩
  obtain ⟨lp, hs1⟩ : ∃ lp, s1 = { s with product := s.product ++ lp } := by
    have h := seedPhaseP_extends oracle t s
    rw [hP] at h
    simpa using h
  subst hs1
  cases e1 with
  | some m => exact ⟨lp, [], [], by simp [hP]⟩
  | none =>
      rcases hR : seedPhaseR oracle t1 { s with product := s.product ++ lp }
        with ⟨e2, t2, s2⟩
      obtain ⟨lr, hs2⟩ : ∃ lr, s2 = { s with product := s.product ++ lp,
                                             review := s.review ++ lr } := by
        have h := seedPhaseR_extends oracle t1
          { s with product := s.product ++ lp }
        rw [hR] at h
        simpa using h
      subst hs2
      cases e2 with
      | some m => exact ⟨lp, lr, [], by simp [hP, hR]⟩
      | none =>
          rcases seedPhaseB_extends oracle t2
            { s with product := s.product ++ lp, review := s.review ++ lr }
            with ⟨lb, hb⟩
          exact ⟨lp, lr, lb, by simp [hP, hR, hb]⟩

lemma ensure_extends (oracle : Oracle) (t : Nat) (s : Store) :
    ∃ lp lr lb, (ensure_seed_data oracle t s).2
      = { s with product := s.product ++ lp, review := s.review ++ lr,
                 blogpost := s.blogpost ++ lb } := by
  unfold ensure_seed_data
  rcases hB : seedBody oracle t s with ⟨e, t1, s1⟩
  have h := seedBody_extends oracle t s
  rw [hB] at h
  simpa using h

/-! ## Claims about seeding (C6, C4, C7) -/

/-- C6: when the product, review and blogpost collections are all
non-empty, running the seeding routine once or twice inserts nothing: the
store is exactly the one before (for any oracle, since no insert is even
attempted). -/
theorem C6_seeding_idempotent_on_nonempty (oracle : Oracle) (t : Nat)
    (s : Store) (hp : s.product ≠ []) (hr : s.review ≠ [])
    (hb : s.blogpost ≠ []) :
    (ensure_seed_data oracle t s).2 = s ∧
    (ensure_seed_data oracle (ensure_seed_data oracle t s).1
        (ensure_seed_data oracle t s).2).2 = s := by
  have h1 := ensure_nonempty oracle t s hp hr hb
  refine ⟨h1, ?_⟩
  rw [h1]
  exact ensure_nonempty oracle _ s hp hr hb

/-- C6 witness: the concrete populated store `storeX` is untouched by one
or two runs of the seeding routine. -/
theorem C6_seeding_idempotent_on_nonempty_witness :
    (ensure_seed_data okOracle 0 storeX).2 = storeX ∧
    (ensure_seed_data okOracle (ensure_seed_data okOracle 0 storeX).1
        (ensure_seed_data okOracle 0 storeX).2).2 = storeX :=
  C6_seeding_idempotent_on_nonempty okOracle 0 storeX
    (by simp [storeX]) (by simp [storeX, seedReviews])
    (by simp [storeX, seedPosts])

/-- C4 counterexample: `GET /api/reviews` does not call the seeding
routine (`main.py` lines 160-168), so an access to the empty review
collection through it leaves the collection empty — the placeholders
(a non-empty list) are not present afterwards, refuting "after any access
to each of those three collections while empty, its placeholders are
present". -/
theorem C4_counterexample :
    (handle okOracle 0 Store.empty (.getReviews 50)).2.2.review = [] ∧
    seedReviews ≠ [] := by
  refine ⟨by rfl, by simp [seedReviews]⟩

/-- C4 (amended): when the seeding routine runs against an available
store, it inserts the full placeholder set into each of the three
collections that is empty; `GET /api/products` and `GET /api/blog` trigger
it (their final store is exactly the seeded store), but `GET /api/reviews`
does not. -/
theorem C4_seeding_fills_empty_collections (t : Nat) (s : Store) :
    ((s.product = [] →
        (ensure_seed_data okOracle t s).2.product = seedProducts) ∧
     (s.review = [] →
        (ensure_seed_data okOracle t s).2.review = seedReviews) ∧
     (s.blogpost = [] →
        (ensure_seed_data okOracle t s).2.blogpost = seedPosts)) ∧
    (∀ q c sc, (list_products okOracle t s q c sc).2.2
        = (ensure_seed_data okOracle t s).2) ∧
    (∀ c, (list_blog okOracle t s c).2.2
        = (ensure_seed_data okOracle t s).2) ∧
    (∀ limit, (get_reviews okOracle t s limit).2.2 = s) := by
  refine ⟨⟨?_, ?_, ?_⟩, ?_, ?_, ?_⟩
  · intro h; simp [ensure_ok_store, seededStore, h]
  · intro h; simp [ensure_ok_store, seededStore, h]
  · intro h; simp [ensure_ok_store, seededStore, h]
  · intro q c sc
    rcases hE : ensure_seed_data okOracle t s with ⟨t1, s1⟩
    simp [list_products, hE, okOracle]
  · intro c
    rcases hE : ensure_seed_data okOracle t s with ⟨t1, s1⟩
    simp [list_blog, hE, okOracle]
  · intro limit
    simp [get_reviews, okOracle]

/-- C4 witness: on the empty store the seeded collections hold exactly the
placeholder documents. -/
theorem C4_seeding_fills_empty_collections_witness :
    (ensure_seed_data okOracle 0 Store.empty).2.product = seedProducts ∧
    (ensure_seed_data okOracle 0 Store.empty).2.review = seedReviews ∧
    (ensure_seed_data okOracle 0 Store.empty).2.blogpost = seedPosts :=
  ⟨((C4_seeding_fills_empty_collections 0 Store.empty).1.1) (by rfl),
   ((C4_seeding_fills_empty_collections 0 Store.empty).1.2.1) (by rfl),
   ((C4_seeding_fills_empty_collections 0 Store.empty).1.2.2) (by rfl)⟩

/-- C7 counterexample: with a store that accepts the first
two seeding operations and rejects the third (the insert of the second
placeholder product), `GET /api/products` on an empty store swallows the
failure but returns the one partially inserted placeholder — different
from the empty response it would give had seeding not run. -/
theorem C7_counterexample :
    (list_products cexOracle 0 Store.empty none none none).1
        = .products (seedProducts.take 1) ∧
    Store.empty.product.filter
        (matchesProduct (mkProductFilter none none none)) = [] ∧
    seedProducts.take 1 ≠ [] := by
  refine ⟨by rfl, by rfl, by simp [seedProducts]⟩

/-- C7 (amended): every seeding failure is swallowed — the routine returns
normally — and when the failure hits the first store operation of the routine
the store is unchanged and the triggering endpoint answers exactly from
the unchanged store; a failure after some inserts leaves those inserts in
place (see the counterexample). -/
theorem C7_seeding_failure_swallowed (oracle : Oracle) (t : Nat) (s : Store)
    (m m2 : String) (q c sc cb : Option String) (h : oracle t = some m) :
    (ensure_seed_data oracle t s).2 = s ∧
    (list_products oracle t s q c sc).2.2 = s ∧
    (list_blog oracle t s cb).2.2 = s ∧
    (oracle (t + 1) = none →
      (list_products oracle t s q c sc).1
        = .products (s.product.filter
            (matchesProduct (mkProductFilter q c sc))) ∧
      (list_blog oracle t s cb).1
        = .posts (s.blogpost.filter (matchesPost (strParam cb)))) ∧
    (oracle (t + 1) = some m2 →
      (list_products oracle t s q c sc).1 = .serverError m2 ∧
      (list_blog oracle t s cb).1 = .serverError m2) := by
  have hE : ensure_seed_data oracle t s = (t + 1, s) := by
    simp [ensure_seed_data, seedBody, seedPhaseP, h]
  refine ⟨by simp [hE], ?_, ?_, ?_, ?_⟩
  · rcases hO2 : oracle (t + 1) with _ | mm <;>
      simp [list_products, hE, hO2]
  · rcases hO2 : oracle (t + 1) with _ | mm <;>
      simp [list_blog, hE, hO2]
  · intro h2
    exact ⟨by simp [list_products, hE, h2], by simp [list_blog, hE, h2]⟩
  · intro h2
    exact ⟨by simp [list_products, hE, h2], by simp [list_blog, hE, h2]⟩

/-- C7 witness: with the always-failing store, a products listing on the
populated store `storeX` swallows the seeding failure, leaves the store
unchanged, and surfaces the query failure itself as the response. -/
theorem C7_seeding_failure_swallowed_witness :
    (ensure_seed_data failOracle 0 storeX).2 = storeX ∧
    (list_products failOracle 0 storeX none none none).2.2 = storeX ∧
    (list_blog failOracle 0 storeX none).2.2 = storeX ∧
    (failOracle 1 = none →
      (list_products failOracle 0 storeX none none none).1
        = .products (storeX.product.filter
            (matchesProduct (mkProductFilter none none none))) ∧
      (list_blog failOracle 0 storeX none).1
        = .posts (storeX.blogpost.filter (matchesPost (strParam none)))) ∧
    (failOracle 1 = some longMsg →
      (list_products failOracle 0 storeX none none none).1
        = .serverError longMsg ∧
      (list_blog failOracle 0 storeX none).1 = .serverError longMsg) :=
  C7_seeding_failure_swallowed failOracle 0 storeX longMsg longMsg
    none none none none (by rfl)

/-! ## Query lemmas -/

lemma isSubstrL_nil (l : List Char) : isSubstrL [] l = true := by
  cases l <;> simp [isSubstrL, List.isPrefixOf]

lemma substrCI_empty_left (s : String) : substrCI "" s = true := by
  have h : lowerChars "" = [] := rfl
  simp [substrCI, h, isSubstrL_nil]

lemma list_products_ok (oracle : Oracle) (t : Nat) (s : Store)
    (q c sc : Option String) (items : List Product)
    (h : (list_products oracle t s q c sc).1 = .products items) :
    items = (ensure_seed_data oracle t s).2.product.filter
        (matchesProduct (mkProductFilter q c sc)) ∧
    (list_products oracle t s q c sc).2.2
      = (ensure_seed_data oracle t s).2 := by
  rcases hE : ensure_seed_data oracle t s with ⟨t1, s1⟩
  rcases hO : oracle t1 with _ | m
  · constructor
    · have h2 := h
      simp [list_products, hE, hO] at h2
      exact h2.symm
    · simp [list_products, hE, hO]
  · exfalso
    simp [list_products, hE, hO] at h

lemma matchesProduct_category (f : ProductFilter) (p : Product) (c : String)
    (hf : f.category = some c) (h : matchesProduct f p = true) :
    p.category = c := by
  simp [matchesProduct, hf, Bool.and_eq_true] at h
  exact h.1.1

lemma matchesProduct_subcategory (f : ProductFilter) (p : Product)
    (sc : String) (hf : f.subcategory = some sc)
    (h : matchesProduct f p = true) : p.subcategory = some sc := by
  simp [matchesProduct, hf, Bool.and_eq_true] at h
  rcases hp : p.subcategory with _ | psc <;> rw [hp] at h
  · simp at h
  · simp at h
    rw [h.1.2]

/-! ## Claims about queries and errors (C2, C8, C3, C9) -/

/-- C2: for every free-text query `q` on `GET /api/products`, the returned
sequence is exactly the products (of the store at query time) whose title
or description contains `q` as a case-insensitive substring. -/
theorem C2_free_text_query (oracle : Oracle) (t : Nat) (s : Store)
    (q : String) (items : List Product)
    (h : (list_products oracle t s (some q) none none).1
          = .products items) :
    ∀ p : Product, p ∈ items ↔
      p ∈ (list_products oracle t s (some q) none none).2.2.product ∧
      (substrCI q p.title
        || (match p.description with
            | none => false
            | some d => substrCI q d)) = true := by
  rcases list_products_ok oracle t s (some q) none none items h
    with ⟨hitems, hstore⟩
  intro p
  rw [hstore, hitems, List.mem_filter]
  by_cases hq : q = ""
  · subst hq
    have h0 : ("" : String).isEmpty = true := rfl
    simp [mkProductFilter, strParam, matchesProduct, substrCI_empty_left, h0]
  · have hq2 : q.isEmpty = false := by
      rcases hb : q.isEmpty with _ | _
      · rfl
      · exact absurd ((String.isEmpty_iff _).mp hb) hq
    simp [mkProductFilter, strParam, hq2, matchesProduct]

/-- C2 witness: on the freshly seeded store, the query "neem" returns
exactly the placeholder "Neem Herbal Oil", which matches on its title. -/
theorem C2_free_text_query_witness :
    neemOil ∈ seedProducts.take 1 ↔
      neemOil ∈ (list_products okOracle 0 Store.empty
          (some "neem") none none).2.2.product ∧
      (substrCI "neem" neemOil.title
        || (match neemOil.description with
            | none => false
            | some d => substrCI "neem" d)) = true :=
  C2_free_text_query okOracle 0 Store.empty "neem" (seedProducts.take 1)
    (by rfl) neemOil

/-- C8 counterexample: the empty string is a supplied `category` value, but
it is falsy in Python (`if category:`), so no equality filter is applied
and a product whose category is "X" is returned even though "X" differs
from the supplied value. -/
theorem C8_counterexample :
    (list_products okOracle 0 storeX none (some "") none).1
        = .products [prodX] ∧ prodX.category ≠ "" := by
  refine ⟨by rfl, by simp [prodX]⟩

/-- C8 (amended): for every NON-EMPTY `category` value supplied to
`GET /api/products`, the category of every returned record equals the supplied
value, and likewise for a non-empty `subcategory` value (the empty string
is falsy and disables the filter). -/
theorem C8_category_equality_filter (oracle : Oracle) (t : Nat) (s : Store)
    (q cOpt scOpt : Option String) (c sc : String)
    (items1 items2 : List Product) (hc : c ≠ "") (hsc : sc ≠ "")
    (h1 : (list_products oracle t s q (some c) scOpt).1 = .products items1)
    (h2 : (list_products oracle t s q cOpt (some sc)).1 = .products items2) :
    (∀ p ∈ items1, p.category = c) ∧
    (∀ p ∈ items2, p.subcategory = some sc) := by
  have hcE : (c.isEmpty) = false := by
    rcases hb : c.isEmpty with _ | _
    · rfl
    · exact absurd ((String.isEmpty_iff _).mp hb) hc
  have hscE : (sc.isEmpty) = false := by
    rcases hb : sc.isEmpty with _ | _
    · rfl
    · exact absurd ((String.isEmpty_iff _).mp hb) hsc
  constructor
  · intro p hp
    rcases list_products_ok oracle t s q (some c) scOpt items1 h1
      with ⟨hitems, _⟩
    rw [hitems, List.mem_filter] at hp
    exact matchesProduct_category _ p c
      (by simp [mkProductFilter, strParam, hcE]) hp.2
  · intro p hp
    rcases list_products_ok oracle t s q cOpt (some sc) items2 h2
      with ⟨hitems, _⟩
    rw [hitems, List.mem_filter] at hp
    exact matchesProduct_subcategory _ p sc
      (by simp [mkProductFilter, strParam, hscE]) hp.2

/-- C8 witness: filtering the seeded store by category
"Ayurvedic Products" and by subcategory "Oils" only yields records
carrying those exact values. -/
theorem C8_category_equality_filter_witness :
    (∀ p ∈ (seededStore Store.empty).product.filter
        (matchesProduct (mkProductFilter none (some "Ayurvedic Products")
          none)), p.category = "Ayurvedic Products") ∧
    (∀ p ∈ (seededStore Store.empty).product.filter
        (matchesProduct (mkProductFilter none none (some "Oils"))),
      p.subcategory = some "Oils") :=
  C8_category_equality_filter okOracle 0 Store.empty none none none
    "Ayurvedic Products" "Oils" _ _ (by simp) (by simp)
    (by rfl) (by rfl)

set_option maxRecDepth 2000 in
/-- C3 counterexample: with the store failing with a 100-character message,
both `GET /api/products` and `POST /api/products` surface HTTP 500 whose
detail is the FULL message (`detail=str(e)`, `main.py` lines 147 and 156),
not its 80-character truncation: the detail is not a truncated form. -/
theorem C3_counterexample :
    (list_products failOracle 0 Store.empty none none none).1
        = .serverError longMsg ∧
    (create_product failOracle 0 Store.empty rawGoodProduct).1
        = .serverError longMsg ∧
    truncate80 longMsg ≠ longMsg := by
  refine ⟨by rfl, by rfl, by decide⟩

/-- C3 (amended): when the store raises during the list or create
operation, the endpoint surfaces HTTP 500 whose detail is the full
error message of the store, with no truncation (the 80-character truncation
exists only in the `/test` diagnostics endpoint). -/
theorem C3_storage_error_full_detail (oracle : Oracle) (t : Nat) (s : Store)
    (raw : RawProduct) (p : Product) (m mq : String) (q c sc : Option String)
    (hv : raw.validate = .ok p) (hm : oracle t = some m)
    (hq : oracle (ensure_seed_data oracle t s).1 = some mq) :
    (create_product oracle t s raw).1 = .serverError m ∧
    (list_products oracle t s q c sc).1 = .serverError mq := by
  constructor
  · simp [create_product, hv, hm]
  · rcases hE : ensure_seed_data oracle t s with ⟨t1, s1⟩
    rw [hE] at hq
    simp only [] at hq
    simp [list_products, hE, hq]

/-- C3 witness: against the always-failing store the concrete product
listing and creation both answer HTTP 500 carrying `longMsg` in full. -/
theorem C3_storage_error_full_detail_witness :
    (create_product failOracle 0 Store.empty rawGoodProduct).1
        = .serverError longMsg ∧
    (list_products failOracle 0 Store.empty none none none).1
        = .serverError longMsg :=
  C3_storage_error_full_detail failOracle 0 Store.empty rawGoodProduct
    goodProduct longMsg longMsg none none none (by rfl) (by rfl) (by rfl)

/-- C9: no endpoint of the API updates or deletes a stored document: for
every request, each collection of the resulting store has the prior
collection as a prefix — every document present before is still present,
unchanged, in its position; the only mutations are appended inserts. -/
theorem C9_store_append_only (oracle : Oracle) (t : Nat) (s : Store)
    (req : Req) :
    s.product <+: (handle oracle t s req).2.2.product ∧
    s.review <+: (handle oracle t s req).2.2.review ∧
    s.blogpost <+: (handle oracle t s req).2.2.blogpost ∧
    s.consultation <+: (handle oracle t s req).2.2.consultation ∧
    s.contactmessage <+: (handle oracle t s req).2.2.contactmessage := by
  cases req with
  | root => simp [handle]
  | testDiag => simp [handle]
  | categories => simp [handle]
  | services => simp [handle]
  | listProducts q c sc =>
      rcases ensure_extends oracle t s with ⟨lp, lr, lb, hE2⟩
      rcases hE : ensure_seed_data oracle t s with ⟨t1, s1⟩
      rw [hE] at hE2
      simp only [] at hE2
      subst hE2
      rcases hO : oracle t1 with _ | m <;>
        simp [handle, list_products, hE, hO]
  | createProduct raw =>
      rcases hv : raw.validate with fs | p
      · simp [handle, create_product, hv]
      · rcases hO : oracle t with _ | m <;>
          simp [handle, create_product, hv, hO]
  | getReviews limit =>
      rcases hO : oracle t with _ | m <;>
        simp [handle, get_reviews, hO]
  | addReview raw =>
      rcases hv : raw.validate with fs | r
      · simp [handle, add_review, hv]
      · rcases hO : oracle t with _ | m <;>
          simp [handle, add_review, hv, hO]
  | listBlog c =>
      rcases ensure_extends oracle t s with ⟨lp, lr, lb, hE2⟩
      rcases hE : ensure_seed_data oracle t s with ⟨t1, s1⟩
      rw [hE] at hE2
      simp only [] at hE2
      subst hE2
      rcases hO : oracle t1 with _ | m <;>
        simp [handle, list_blog, hE, hO]
  | createBlog raw now =>
      rcases hv : raw.validate with fs | b
      · simp [handle, create_blog, hv]
      · rcases hO : oracle t with _ | m <;>
          simp [handle, create_blog, hv, hO]
  | bookConsultation raw =>
      rcases hv : raw.validate with fs | c
      · simp [handle, book_consultation, hv]
      · rcases hO : oracle t with _ | m <;>
          simp [handle, book_consultation, hv, hO]
  | contactMsg raw =>
      rcases hv : raw.validate with fs | c
      · simp [handle, contact, hv]
      · rcases hO : oracle t with _ | m <;>
          simp [handle, contact, hv, hO]
